import Mathlib

/-!
Verification of the Google Search Console → S3 → Snowflake ETL script
(`Google Query ETL/script.py`) against its natural-language specification.

The script is shallowly embedded: pure data transformations (batching, CSV
serialization, the MERGE statement's set semantics, S3 listing/deletion)
become Lean functions on lists, and the effectful orchestration `run_etl`
becomes a function from an explicit failure oracle (which third-party call
raises, what the API returned) to a trace of the externally visible calls it
makes, its final outcome, and the files it produced.  Floating-point metric
columns (`ctr`, `position`) are carried as their serialized decimal tokens:
the script never computes with them, it only copies them between systems.
-/

namespace ETL

/-- Module constant `CLIENT = 'OCF'` (script.py line 12). -/
def CLIENT : String := "OCF"

/-- Module constant `client = 'ocf'` (script.py line 43). -/
def clientLower : String := "ocf"

/-- One row of the Google Search Console `searchanalytics` response
(`response['rows']`, script.py lines 84-94): a `keys` list (one entry per
requested dimension) plus optional metric fields, absent entries meaning the
API omitted them (`row.get(..., 0)` supplies the default). -/
structure GSCRow where
  keys : List String
  clicks : Option Int := none
  impressions : Option Int := none
  ctr : Option String := none
  position : Option String := none
deriving DecidableEq

/-- A row of the DataFrame built by `fetch_data_from_gsc` (script.py lines
85-98): the five metric columns plus the `start_dt` / `end_dt` columns the
function appends. -/
structure FetchedRow where
  Query : String
  Clicks : Int
  Impressions : Int
  CTR : String
  Position : String
  start_dt : String
  end_dt : String
deriving DecidableEq

/-- A row of the DataFrame as it enters `upload_to_s3`: `run_etl` has added
the `client` and `timestamp` columns (script.py lines 178-179). -/
structure Record where
  Query : String
  Clicks : Int
  Impressions : Int
  CTR : String
  Position : String
  start_dt : String
  end_dt : String
  client : String
  timestamp : String
deriving DecidableEq

/-- Column-addition step of `run_etl` (script.py lines 178-179):
`df['client'] = client; df['timestamp'] = ''`, collapsed into one
per-row record extension. -/
def toRecord (r : FetchedRow) (c ts : String) : Record :=
  { Query := r.Query, Clicks := r.Clicks, Impressions := r.Impressions,
    CTR := r.CTR, Position := r.Position, start_dt := r.start_dt,
    end_dt := r.end_dt, client := c, timestamp := ts }

/-- Body of `fetch_data_from_gsc` (script.py lines 84-101): when the
response has a `rows` key, one record per row with metrics defaulted to 0
when absent and the date columns set to the requested range; otherwise an
empty frame.  The API returns one `keys` entry per requested dimension
(here exactly one, the query text). -/
def fetch_data_from_gsc (startDate endDate : String)
    (resp : Option (List GSCRow)) : List FetchedRow :=
  match resp with
  | some rows => rows.map fun row =>
      { Query := row.keys.headD "",
        Clicks := row.clicks.getD 0,
        Impressions := row.impressions.getD 0,
        CTR := row.ctr.getD "0",
        Position := row.position.getD "0",
        start_dt := startDate, end_dt := endDate }
  | none => []

/-- Header line of `batch_data.to_csv(file_name, index=False)`: the
DataFrame's columns in creation order. -/
def csvHeader : String :=
  "Query,Clicks,Impressions,CTR,Position,start_dt,end_dt,client,timestamp"

/-- One serialized CSV data line of a record, fields in column order. -/
def serializeRecord (r : Record) : String :=
  String.intercalate ","
    [r.Query, toString r.Clicks, toString r.Impressions, r.CTR, r.Position,
     r.start_dt, r.end_dt, r.client, r.timestamp]

/-- Serialized content of `batch_data.to_csv(file_name, index=False)`
(script.py line 111): header line followed by one line per record. -/
def to_csv (rows : List Record) : String :=
  String.intercalate "\n" (csvHeader :: rows.map serializeRecord)

/-- Local file name `f'batch_{i+1}.csv'` of chunk `i` (script.py line 110). -/
def batchFileName (i : Nat) : String := "batch_" ++ toString (i + 1) ++ ".csv"

/-- Remote key `f"{FOLDER}/{file_name}"` (script.py line 113). -/
def s3Key (folder fname : String) : String := folder ++ "/" ++ fname

/-- Chunk `i` of the frame: `df[start_idx:end_idx]` with
`start_idx = i * BATCH_SIZE` and `end_idx = min((i+1) * BATCH_SIZE, len(df))`
(script.py lines 107-109). -/
def batchChunk {α : Type} (df : List α) (b i : Nat) : List α :=
  (df.take (min ((i + 1) * b) df.length)).drop (i * b)

/-- Number of loop iterations `num_batches = len(df) // BATCH_SIZE + 1`
(script.py line 105). -/
def num_batches (n b : Nat) : Nat := n / b + 1

/-- State threaded through the `upload_to_s3` loop: local files currently on
disk (name, content), objects uploaded so far (key, content) in upload
order, and the index of the chunk whose upload raised, if any. -/
structure UploadState where
  localFiles : List (String × String)
  uploads : List (String × String)
  failedAt : Option Nat

/-- Effect of `os.remove(file_name)` (script.py line 114) on the set of
local files. -/
def osRemove (name : String) (files : List (String × String)) :
    List (String × String) :=
  files.filter fun f => !(f.1 == name)

/-- Body of the `upload_to_s3` loop (script.py lines 106-115) over a list of
pending chunk indices.  Each iteration slices the chunk, writes its CSV to a
local file, reassigns the chunk's `client` column to the uppercase constant
(line 112 — after the CSV is already written, and the reassigned frame is
never used again), uploads the local file, and deletes it.  If the upload
call raises (`fails i`), the loop aborts with the freshly written local file
still on disk. -/
def runChunks (folder : String) (df : List Record) (b : Nat)
    (fails : Nat → Bool) : List Nat → UploadState → UploadState
  | [], st => st
  | i :: rest, st =>
    let fname := batchFileName i
    let batch := batchChunk df b i
    let content := to_csv batch
    let afterWrite := st.localFiles ++ [(fname, content)]
    let _ := batch.map fun r => { r with client := CLIENT }
    if fails i then
      { st with localFiles := afterWrite, failedAt := some i }
    else
      runChunks folder df b fails rest
        { localFiles := osRemove fname afterWrite,
          uploads := st.uploads ++ [(s3Key folder fname, content)],
          failedAt := st.failedAt }

/-- `upload_to_s3(df)` (script.py lines 104-115), parameterized by the
storage folder, the batch size and an oracle saying which chunk's
`s3.upload_file` call raises. -/
def upload_to_s3 (folder : String) (df : List Record) (b : Nat)
    (fails : Nat → Bool) : UploadState :=
  runChunks folder df b fails (List.range (num_batches df.length b))
    { localFiles := [], uploads := [], failedAt := none }

/-- Whether the string `s` starts with the string `p`, compared character
by character (structural recursion, so it evaluates on concrete input). -/
def strStartsWith (p s : String) : Bool :=
  p.data.isPrefixOf s.data

/-- The object store, modelled as a list of (key, content) pairs.
`list_objects_v2(Bucket=BUCKET, Prefix=FOLDER)` (script.py line 159)
returns the objects whose key starts with the folder string. -/
def list_objects_v2 (objs : List (String × String)) (folder : String) :
    List (String × String) :=
  objs.filter fun o => strStartsWith folder o.1

/-- `s3.delete_object(Bucket=BUCKET, Key=key)` (script.py line 162):
removes the object with the given key. -/
def delete_object (objs : List (String × String)) (key : String) :
    List (String × String) :=
  objs.filter fun o => !(o.1 == key)

/-- `clear_s3_folder()` (script.py lines 158-165): list the objects under
the folder and delete each listed key; when nothing is listed the loop body
never runs. -/
def clear_s3_folder (objs : List (String × String)) (folder : String) :
    List (String × String) :=
  (list_objects_v2 objs folder).foldl (fun acc obj => delete_object acc obj.1)
    objs

/-- A row of the Snowflake destination (and staging) table: the columns the
MERGE statement reads and writes (script.py lines 131-147). -/
structure WRow where
  query : String
  clicks : Int
  impressions : Int
  ctr : String
  position : String
  start_dt : String
  end_dt : String
  client : String
deriving DecidableEq

/-- Matching key of the MERGE statement's ON clause (script.py lines
134-136): `tgt.query = src.query AND tgt.start_dt = src.start_dt AND
tgt.end_dt = src.end_dt`. -/
def mergeKey (r : WRow) : String × String × String :=
  (r.query, r.start_dt, r.end_dt)

/-- WHEN MATCHED THEN UPDATE clause (script.py lines 137-143): overwrite
the metric columns and the client tag of the target row with the source
row's values; the key columns are untouched. -/
def applyUpdate (t s : WRow) : WRow :=
  { t with clicks := s.clicks, impressions := s.impressions,
           ctr := s.ctr, position := s.position, client := s.client }

/-- Effect of the MERGE on one existing target row: updated by the first
source row with the same key, unchanged when no source row matches. -/
def updateWith (src : List WRow) (t : WRow) : WRow :=
  match src.find? (fun s => decide (mergeKey s = mergeKey t)) with
  | some s => applyUpdate t s
  | none => t

/-- Whether a source row matches some target row on the merge key. -/
def matchedInTgt (tgt : List WRow) (s : WRow) : Bool :=
  tgt.any fun t => decide (mergeKey t = mergeKey s)

/-- Set semantics of the MERGE statement (script.py lines 131-147): every
target row matching a source row on the key is updated in place, and the
source rows matching no target row are inserted. -/
def mergeInto (tgt src : List WRow) : List WRow :=
  tgt.map (updateWith src) ++ src.filter fun s => !(matchedInTgt tgt s)

/-- The externally visible calls `run_etl` makes, in order. -/
inductive Event where
  | authCall
  | connectCall
  | gscQuery
  | s3Upload (key : String)
  | sqlCopy
  | sqlMerge
  | sqlTruncate
  | s3List
  | s3Delete (key : String)
  | printMsg (msg : String)
  | connClose
deriving DecidableEq

/-- How the process ends: clean success, exception caught by `run_etl`'s
`except` clause, or exception propagating out of `run_etl` unhandled. -/
inductive Outcome where
  | success
  | caught
  | uncaught
deriving DecidableEq

/-- Message printed by the `except` clause (script.py line 188); the
interpolated exception text is elided. -/
def ETL_FAIL : String := "ETL process failed"

/-- Message printed on the empty-frame path (script.py line 186). -/
def NO_DATA : String := "ETL process completed with no data to process."

/-- Message printed on the full success path (script.py line 184). -/
def SUCCESS_MSG : String := "ETL process completed successfully."

/-- Result of one `run_etl()` call: trace of external calls, final outcome,
the objects uploaded to the store, whether a warehouse connection was ever
opened, and whether it was closed by the time the function returned. -/
structure EtlResult where
  trace : List Event
  outcome : Outcome
  uploads : List (String × String)
  connOpened : Bool
  connClosed : Bool

/-- Environment-derived configuration (script.py lines 25-41): storage
folder, batch size, the two credentials `connect_snowflake` checks, and the
run date (`datetime.now() - timedelta(days=1)`, used as both bounds). -/
structure Config where
  folder : String
  batchSize : Nat
  snowflakeAccount : Option String
  snowflakeUser : Option String
  runDate : String

/-- Python truthiness of `not SNOWFLAKE_ACCOUNT` (script.py line 54): an
unset variable (`None`) or an empty string is falsy. -/
def falsy : Option String → Bool
  | none => true
  | some s => s.isEmpty

/-- Failure oracle for one run: which third-party call raises, what the
analytics API returned (`none` models a response without a `rows` key), and
the objects already present in the store before the run. -/
structure Oracle where
  authFails : Bool
  connectFails : Bool
  fetchFails : Bool
  rows : Option (List GSCRow)
  uploadFails : Nat → Bool
  copyFails : Bool
  mergeFails : Bool
  truncateFails : Bool
  cleanupFails : Bool
  initObjects : List (String × String)

/-- The frame `run_etl` hands to `upload_to_s3`: the fetched rows with the
`client` column set to the lowercase module constant and the `timestamp`
column set to the empty string (script.py lines 177-179). -/
def etlFrame (cfg : Config) (o : Oracle) : List Record :=
  (fetch_data_from_gsc cfg.runDate cfg.runDate o.rows).map
    fun r => toRecord r clientLower ""

/-- The upload loop's final state in one run. -/
def etlUpload (cfg : Config) (o : Oracle) : UploadState :=
  upload_to_s3 cfg.folder (etlFrame cfg o) cfg.batchSize o.uploadFails

/-- Result of a run whose exception was caught by the `except` clause
(script.py lines 187-190): the failure message is printed and the
`finally` clause closes the connection. -/
def caughtResult (t : List Event) (ups : List (String × String)) :
    EtlResult :=
  { trace := t ++ [Event.printMsg ETL_FAIL, Event.connClose],
    outcome := .caught, uploads := ups,
    connOpened := true, connClosed := true }

/-- Events up to and including the fetch call, with the fetch's own
"No data found." print when the response has no `rows` key (script.py
line 100). -/
def fetchTrace (o : Oracle) : List Event :=
  [Event.authCall, Event.connectCall, Event.gscQuery] ++
    (if o.rows.isNone then [Event.printMsg "No data found."] else [])

/-- Events up to the end of the upload loop: one upload event per
successfully uploaded chunk, in order. -/
def uploadTrace (cfg : Config) (o : Oracle) : List Event :=
  fetchTrace o ++ (etlUpload cfg o).uploads.map fun u => Event.s3Upload u.1

/-- The objects `clear_s3_folder` lists at the end of a fully successful
run: whatever was already under the folder plus this run's uploads. -/
def listedObjects (cfg : Config) (o : Oracle) : List (String × String) :=
  list_objects_v2 (o.initObjects ++ (etlUpload cfg o).uploads) cfg.folder

/-- `run_etl()` (script.py lines 169-190).  `auth_search_console()` and
`connect_snowflake()` run before the `try` block, so exceptions they raise
propagate out unhandled; everything from the date computation onward runs
inside `try ... except ... finally conn.close()`.  `connect_snowflake`
checks the two credentials before issuing its connect call (lines 54-55).
The upload loop's per-chunk behaviour is delegated to `upload_to_s3`;
`load_to_snowflake` is the copy/merge/truncate sequence (lines 118-155) and
`clear_s3_folder` the listing-and-delete loop (lines 158-165). -/
def runEtl (cfg : Config) (o : Oracle) : EtlResult :=
  if o.authFails then
    { trace := [Event.authCall], outcome := .uncaught, uploads := [],
      connOpened := false, connClosed := false }
  else if falsy cfg.snowflakeAccount || falsy cfg.snowflakeUser then
    { trace := [Event.authCall], outcome := .uncaught, uploads := [],
      connOpened := false, connClosed := false }
  else if o.connectFails then
    { trace := [Event.authCall, Event.connectCall], outcome := .uncaught,
      uploads := [], connOpened := false, connClosed := false }
  else if o.fetchFails then
    caughtResult [Event.authCall, Event.connectCall, Event.gscQuery] []
  else if (etlFrame cfg o).isEmpty then
    { trace := fetchTrace o ++ [Event.printMsg NO_DATA, Event.connClose],
      outcome := .success, uploads := [],
      connOpened := true, connClosed := true }
  else
    match (etlUpload cfg o).failedAt with
    | some _ => caughtResult (uploadTrace cfg o) (etlUpload cfg o).uploads
    | none =>
      if o.copyFails then
        caughtResult (uploadTrace cfg o) (etlUpload cfg o).uploads
      else if o.mergeFails then
        caughtResult (uploadTrace cfg o ++ [Event.sqlCopy])
          (etlUpload cfg o).uploads
      else if o.truncateFails then
        caughtResult (uploadTrace cfg o ++ [Event.sqlCopy, Event.sqlMerge])
          (etlUpload cfg o).uploads
      else if o.cleanupFails then
        caughtResult (uploadTrace cfg o ++
            [Event.sqlCopy, Event.sqlMerge, Event.sqlTruncate, Event.s3List])
          (etlUpload cfg o).uploads
      else
        { trace := uploadTrace cfg o ++
            [Event.sqlCopy, Event.sqlMerge, Event.sqlTruncate,
             Event.s3List] ++
            ((listedObjects cfg o).map fun x => Event.s3Delete x.1) ++
            [Event.printMsg SUCCESS_MSG, Event.connClose],
          outcome := .success, uploads := (etlUpload cfg o).uploads,
          connOpened := true, connClosed := true }

/-! Lemmas about the batching loop. -/

lemma take_min_length {α : Type} (l : List α) (a : Nat) :
    l.take (min a l.length) = l.take a := by
  rcases Nat.le_total a l.length with h | h
  · rw [min_eq_left h]
  · rw [min_eq_right h, List.take_length, List.take_of_length_le h]

lemma batchChunk_eq {α : Type} (df : List α) (b i : Nat) :
    batchChunk df b i = (df.take ((i + 1) * b)).drop (i * b) := by
  rw [batchChunk, take_min_length]

lemma batchChunk_length_le {α : Type} (df : List α) (b i : Nat) :
    (batchChunk df b i).length ≤ b := by
  rw [batchChunk_eq, List.length_drop, List.length_take]
  have h : (i + 1) * b = i * b + b := Nat.succ_mul i b
  have h2 : min ((i + 1) * b) df.length ≤ (i + 1) * b := Nat.min_le_left _ _
  omega

lemma flatten_chunks_take {α : Type} (df : List α) (b : Nat) (m : Nat) :
    ((List.range m).map (batchChunk df b)).flatten = df.take (m * b) := by
  induction m with
  | zero => simp
  | succ m ih =>
    rw [List.range_succ, List.map_append, List.flatten_append, ih]
    simp only [List.map_cons, List.map_nil, List.flatten_cons,
      List.flatten_nil, List.append_nil, batchChunk_eq]
    have hm : m * b ≤ (m + 1) * b := Nat.mul_le_mul_right b (Nat.le_succ m)
    have h1 : (df.take ((m + 1) * b)).take (m * b) = df.take (m * b) := by
      rw [List.take_take, min_eq_left hm]
    calc df.take (m * b) ++ (df.take ((m + 1) * b)).drop (m * b)
        = (df.take ((m + 1) * b)).take (m * b) ++
            (df.take ((m + 1) * b)).drop (m * b) := by rw [h1]
      _ = df.take ((m + 1) * b) := List.take_append_drop _ _

lemma length_lt_succ_div_mul (n b : Nat) (hb : 0 < b) :
    n < (n / b + 1) * b := by
  have hmod : n % b < b := Nat.mod_lt n hb
  have hdm : b * (n / b) + n % b = n := Nat.div_add_mod n b
  have : (n / b + 1) * b = n / b * b + b := Nat.succ_mul _ _
  have hcomm : n / b * b = b * (n / b) := Nat.mul_comm _ _
  omega

lemma flatten_chunks {α : Type} (df : List α) (b : Nat) (hb : 0 < b) :
    ((List.range (num_batches df.length b)).map (batchChunk df b)).flatten
      = df := by
  rw [num_batches, flatten_chunks_take]
  exact List.take_of_length_le
    (Nat.le_of_lt (length_lt_succ_div_mul df.length b hb))

lemma batchChunk_last_empty {α : Type} (df : List α) (b : Nat)
    (hd : b ∣ df.length) : batchChunk df b (df.length / b) = [] := by
  rw [batchChunk_eq]
  apply List.drop_eq_nil_of_le
  rw [List.length_take, Nat.div_mul_cancel hd]
  exact Nat.min_le_right _ _

lemma mem_batchChunk {α : Type} {df : List α} {b i : Nat} {r : α}
    (h : r ∈ batchChunk df b i) : r ∈ df := by
  rw [batchChunk_eq] at h
  exact List.mem_of_mem_take (List.mem_of_mem_drop h)

lemma osRemove_append_single (n : String) (c : String)
    (l : List (String × String)) :
    osRemove n (l ++ [(n, c)]) = osRemove n l := by
  simp [osRemove, List.filter_append]

lemma osRemove_nil (n : String) : osRemove n [] = [] := rfl

lemma osRemove_single_self (n c : String) : osRemove n [(n, c)] = [] := by
  simp [osRemove]

/-- When no pending chunk's upload fails and the disk is clean, the loop
uploads every pending chunk's CSV in order and ends with a clean disk. -/
lemma runChunks_noFail (folder : String) (df : List Record) (b : Nat)
    (fails : Nat → Bool) (is : List Nat) (st : UploadState)
    (hf : ∀ i ∈ is, fails i = false) (hl : st.localFiles = []) :
    runChunks folder df b fails is st =
      { localFiles := [],
        uploads := st.uploads ++ is.map
          (fun i => (s3Key folder (batchFileName i), to_csv (batchChunk df b i))),
        failedAt := st.failedAt } := by
  induction is generalizing st with
  | nil => cases st; simp_all [runChunks]
  | cons i rest ih =>
    have hi : fails i = false := hf i (List.mem_cons_self i rest)
    rw [runChunks, hi]
    simp only [Bool.false_eq_true, if_false]
    rw [ih _ (fun j hj => hf j (List.mem_cons_of_mem i hj))
        (by simp [hl, osRemove_single_self])]
    simp [hl]

/-- Starting from a clean disk with no failure recorded: if the loop ends
without a failure the disk is clean, and if it ends failing at chunk `k`
the only file on disk is chunk `k`'s freshly written CSV. -/
lemma runChunks_localFiles_char (folder : String) (df : List Record)
    (b : Nat) (fails : Nat → Bool) (is : List Nat) (st : UploadState)
    (hl : st.localFiles = []) (hn : st.failedAt = none) :
    ((runChunks folder df b fails is st).failedAt = none →
      (runChunks folder df b fails is st).localFiles = []) ∧
    (∀ k, (runChunks folder df b fails is st).failedAt = some k →
      (runChunks folder df b fails is st).localFiles =
        [(batchFileName k, to_csv (batchChunk df b k))]) := by
  induction is generalizing st with
  | nil =>
    constructor
    · intro _; simpa [runChunks] using hl
    · intro k hk; rw [runChunks] at hk; rw [hn] at hk; cases hk
  | cons i rest ih =>
    by_cases hi : fails i
    · rw [runChunks]
      simp only [hi, if_true]
      constructor
      · intro h; cases h
      · intro k hk
        have hk2 : some i = some k := hk
        injection hk2 with hik
        subst hik
        simp [hl]
    · rw [runChunks]
      simp only [hi, Bool.false_eq_true, if_false]
      exact ih _ (by simp [hl, osRemove_single_self]) hn

/-- Every object the loop uploads beyond its starting state is the CSV of
one of its pending chunks, under that chunk's sequential key. -/
lemma runChunks_uploads_mem (folder : String) (df : List Record) (b : Nat)
    (fails : Nat → Bool) (is : List Nat) (st : UploadState)
    (k c : String) (h : (k, c) ∈ (runChunks folder df b fails is st).uploads) :
    (k, c) ∈ st.uploads ∨
      ∃ i ∈ is, k = s3Key folder (batchFileName i) ∧
        c = to_csv (batchChunk df b i) := by
  induction is generalizing st with
  | nil => left; simpa [runChunks] using h
  | cons i rest ih =>
    rw [runChunks] at h
    by_cases hi : fails i
    · simp only [hi, if_true] at h
      left; simpa using h
    · simp only [hi, Bool.false_eq_true, if_false] at h
      rcases ih _ h with hmem | ⟨j, hj, hk⟩
      · rcases List.mem_append.mp hmem with h1 | h1
        · left; exact h1
        · right
          have h2 := List.mem_singleton.mp h1
          exact ⟨i, List.mem_cons_self i rest,
            congrArg Prod.fst h2, congrArg Prod.snd h2⟩
      · right; exact ⟨j, List.mem_cons_of_mem i hj, hk⟩

/-! Sample data for witnesses and counterexamples. -/

/-- A concrete record as it enters `upload_to_s3`. -/
def sampleRecord (q : String) : Record :=
  { Query := q, Clicks := 1, Impressions := 2, CTR := "0.5",
    Position := "1.0", start_dt := "2024-01-01", end_dt := "2024-01-01",
    client := "ocf", timestamp := "" }

/-- A concrete two-row frame. -/
def sampleDf : List Record := [sampleRecord "alpha", sampleRecord "beta"]

/-- C1: for every fetched result set of size n and batch size b, the staging
step produces exactly `n / b + 1` serialized-and-uploaded chunk files; for
n = 0 the single file is the header-only empty CSV, and when b divides n
the trailing file is an empty chunk. -/
theorem C1_staged_file_count (folder : String) (df : List Record) (b : Nat)
    (_hb : 0 < b) :
    (upload_to_s3 folder df b (fun _ => false)).uploads.length =
        df.length / b + 1 ∧
    (df = [] → (upload_to_s3 folder df b (fun _ => false)).uploads =
        [(s3Key folder (batchFileName 0), to_csv [])]) ∧
    (b ∣ df.length →
      (upload_to_s3 folder df b (fun _ => false)).uploads.getLast? =
        some (s3Key folder (batchFileName (df.length / b)), to_csv [])) := by
  rw [upload_to_s3, runChunks_noFail _ _ _ _ _ _ (fun _ _ => rfl) rfl]
  refine ⟨by simp [num_batches], ?_, ?_⟩
  · intro hdf; subst hdf
    have h1 : List.range 1 = [0] := rfl
    simp [num_batches, batchChunk, h1]
  · intro hdvd
    have hr : List.range (num_batches df.length b) =
        List.range (df.length / b) ++ [df.length / b] := by
      rw [num_batches, List.range_succ]
    rw [hr]
    simp [List.getLast?_concat, batchChunk_last_empty df b hdvd]

/-- Witness for C1 at a two-row frame with batch size 2. -/
theorem C1_staged_file_count_witness :
    (upload_to_s3 "gsc_data" sampleDf 2 (fun _ => false)).uploads.length =
      sampleDf.length / 2 + 1 :=
  (C1_staged_file_count "gsc_data" sampleDf 2 (by decide)).1

/-- C9: for every fetched record set and batch size b, the run uploads the
sequentially numbered chunk files in order under the folder key, each chunk
holds at most b records, and the chunks in upload order concatenate back to
exactly the record set (no record lost, duplicated, or reordered). -/
theorem C9_chunk_partition (folder : String) (df : List Record) (b : Nat)
    (hb : 0 < b) :
    (upload_to_s3 folder df b (fun _ => false)).uploads =
      (List.range (df.length / b + 1)).map
        (fun i => (s3Key folder (batchFileName i),
                   to_csv (batchChunk df b i))) ∧
    ((List.range (df.length / b + 1)).map (batchChunk df b)).flatten = df ∧
    (∀ i, (batchChunk df b i).length ≤ b) := by
  refine ⟨?_, ?_, fun i => batchChunk_length_le df b i⟩
  · rw [upload_to_s3, runChunks_noFail _ _ _ _ _ _ (fun _ _ => rfl) rfl]
    simp [num_batches]
  · simpa [num_batches] using flatten_chunks df b hb

/-- Witness for C9 at a two-row frame with batch size 1. -/
theorem C9_chunk_partition_witness :
    ((List.range (sampleDf.length / 1 + 1)).map (batchChunk sampleDf 1)).flatten
      = sampleDf :=
  (C9_chunk_partition "gsc_data" sampleDf 1 (by decide)).2.1

/-- C3 counterexample: with two records, batch size 1 and the second
chunk's upload raising, the loop ends failing at chunk index 1 while that
chunk's freshly written local file `batch_2.csv` is still on disk — the
claim that no local file of the failing chunk itself survives is false. -/
theorem C3_counterexample :
    (upload_to_s3 "gsc_data" sampleDf 1 (fun i => i == 1)).failedAt = some 1 ∧
    (upload_to_s3 "gsc_data" sampleDf 1 (fun i => i == 1)).localFiles.map
        Prod.fst = [batchFileName 1] := by
  constructor <;> rfl

/-- C3 as amended: for every chunk whose upload completes the local file is
deleted before the next chunk starts, so when chunk k's upload raises every
earlier chunk's file is already gone — but the failing chunk's own freshly
written CSV is the one file left on disk (there is no per-chunk
try/finally around the upload call). -/
theorem C3_local_file_hygiene (folder : String) (df : List Record) (b : Nat)
    (fails : Nat → Bool) :
    ((upload_to_s3 folder df b fails).failedAt = none →
      (upload_to_s3 folder df b fails).localFiles = []) ∧
    (∀ k, (upload_to_s3 folder df b fails).failedAt = some k →
      (upload_to_s3 folder df b fails).localFiles =
        [(batchFileName k, to_csv (batchChunk df b k))]) :=
  runChunks_localFiles_char folder df b fails _ _ rfl rfl

/-- Witness for the amended C3: concrete failing run leaves exactly the
failing chunk's file. -/
theorem C3_local_file_hygiene_witness :
    (upload_to_s3 "gsc_data" sampleDf 1 (fun i => i == 1)).localFiles =
      [(batchFileName 1, to_csv (batchChunk sampleDf 1 1))] :=
  (C3_local_file_hygiene "gsc_data" sampleDf 1 (fun i => i == 1)).2 1 (by decide)

/-! Lemmas about the cleanup loop. -/

lemma foldl_delete (ks objs : List (String × String)) :
    ks.foldl (fun acc k => delete_object acc k.1) objs =
      objs.filter fun o => !(ks.any fun k => o.1 == k.1) := by
  induction ks generalizing objs with
  | nil => simp
  | cons k ks ih =>
    rw [List.foldl_cons, ih, delete_object, List.filter_filter]
    apply List.filter_congr
    intro o _
    simp only [List.any_cons, Bool.not_or]
    rw [Bool.and_comm]

/-- C7: cleanup removes exactly the objects under the run's folder: for any
store contents, after `clear_s3_folder` the surviving objects are those
whose key does not start with the folder, a fresh listing of the folder is
empty, and when the initial listing is empty the store is untouched (the
delete loop never runs). -/
theorem C7_cleanup_clears_folder (objs : List (String × String))
    (folder : String) :
    clear_s3_folder objs folder =
      (objs.filter fun o => !(strStartsWith folder o.1)) ∧
    list_objects_v2 (clear_s3_folder objs folder) folder = [] ∧
    (list_objects_v2 objs folder = [] → clear_s3_folder objs folder = objs) := by
  have hmain : clear_s3_folder objs folder =
      objs.filter fun o => !(strStartsWith folder o.1) := by
    rw [clear_s3_folder, foldl_delete]
    apply List.filter_congr
    intro o ho
    by_cases hp : strStartsWith folder o.1
    · have hany : ((list_objects_v2 objs folder).any fun k => o.1 == k.1)
          = true :=
        List.any_eq_true.mpr ⟨o, List.mem_filter.mpr ⟨ho, hp⟩, by simp⟩
      rw [hany, hp]
    · have hany : ((list_objects_v2 objs folder).any fun k => o.1 == k.1)
          = false := by
        apply List.any_eq_false.mpr
        intro k hk
        have hkpfx : strStartsWith folder k.1 = true :=
          (List.mem_filter.mp hk).2
        intro hkey
        rw [beq_iff_eq] at hkey
        rw [hkey] at hp
        exact hp hkpfx
      rw [hany]
      simp [hp]
  refine ⟨hmain, ?_, ?_⟩
  · rw [hmain, list_objects_v2]
    apply List.filter_eq_nil_iff.mpr
    intro o ho
    have := (List.mem_filter.mp ho).2
    simp only [Bool.not_eq_eq_eq_not, Bool.not_true] at this
    simp [this]
  · intro hempty
    rw [hmain]
    apply List.filter_eq_self.mpr
    intro o ho
    have hno : strStartsWith folder o.1 = false := by
      by_contra hq
      have hq2 : strStartsWith folder o.1 = true := by
        revert hq; cases strStartsWith folder o.1 <;> simp
      have : o ∈ list_objects_v2 objs folder :=
        List.mem_filter.mpr ⟨ho, hq2⟩
      rw [hempty] at this
      cases this
    simp [hno]

/-- Witness for C7: a store holding only a key outside the folder is left
untouched (the empty listing makes cleanup a no-op). -/
theorem C7_cleanup_clears_folder_witness :
    clear_s3_folder [("other/key", "y")] "gsc_data" = [("other/key", "y")] :=
  (C7_cleanup_clears_folder [("other/key", "y")] "gsc_data").2.2 (by decide)

/-! Lemmas about the MERGE statement's semantics. -/

lemma mergeKey_applyUpdate (t s : WRow) :
    mergeKey (applyUpdate t s) = mergeKey t := rfl

lemma applyUpdate_applyUpdate (t s : WRow) :
    applyUpdate (applyUpdate t s) s = applyUpdate t s := rfl

lemma applyUpdate_self (s : WRow) : applyUpdate s s = s := rfl

lemma mergeKey_updateWith (src : List WRow) (t : WRow) :
    mergeKey (updateWith src t) = mergeKey t := by
  rw [updateWith]
  cases hfind : src.find? fun s => decide (mergeKey s = mergeKey t) with
  | none => rfl
  | some s => exact mergeKey_applyUpdate t s

lemma updateWith_updateWith (src : List WRow) (t : WRow) :
    updateWith src (updateWith src t) = updateWith src t := by
  conv_lhs => rw [updateWith]
  simp only [mergeKey_updateWith]
  cases hfind : src.find? fun s => decide (mergeKey s = mergeKey t) with
  | none => simp only [updateWith, hfind]
  | some s => simp only [updateWith, hfind, applyUpdate_applyUpdate]

lemma find?_key_self {src : List WRow} (h : (src.map mergeKey).Nodup)
    {s : WRow} (hs : s ∈ src) :
    (src.find? fun x => decide (mergeKey x = mergeKey s)) = some s := by
  induction src with
  | nil => cases hs
  | cons a l ih =>
    rw [List.map_cons, List.nodup_cons] at h
    by_cases hk : mergeKey a = mergeKey s
    · have has : a = s := by
        rcases List.mem_cons.mp hs with h1 | h1
        · exact h1.symm
        · exact absurd (hk ▸ List.mem_map_of_mem mergeKey h1) h.1
      subst has
      exact List.find?_cons_of_pos _ (by simp)
    · have hsl : s ∈ l := by
        rcases List.mem_cons.mp hs with h1 | h1
        · exact absurd (by rw [h1]) hk
        · exact h1
      rw [List.find?_cons_of_neg _ (by simp [hk]), ih h.2 hsl]

lemma map_id_of_mem {α : Type} {f : α → α} :
    ∀ {l : List α}, (∀ x ∈ l, f x = x) → l.map f = l
  | [], _ => rfl
  | a :: l, h => by
    rw [List.map_cons, h a (List.mem_cons_self a l),
        map_id_of_mem fun x hx => h x (List.mem_cons_of_mem a hx)]

/-- C5: re-running the merge with the same staged rows does not duplicate
destination rows.  The merge matches on (query, start_dt, end_dt); provided
the staged rows carry pairwise distinct keys (as the pipeline guarantees —
one row per distinct query text over one fixed date range), applying the
merge a second time updates every previously merged row in place and
inserts nothing, leaving the destination exactly as after the first
application. -/
theorem C5_merge_idempotent (tgt src : List WRow)
    (h : (src.map mergeKey).Nodup) :
    mergeInto (mergeInto tgt src) src = mergeInto tgt src := by
  have hupd_fix : ∀ x ∈ mergeInto tgt src, updateWith src x = x := by
    intro x hx
    rcases List.mem_append.mp hx with hx | hx
    · rcases List.mem_map.mp hx with ⟨t, _, rfl⟩
      exact updateWith_updateWith src t
    · have hsrc : x ∈ src := (List.mem_filter.mp hx).1
      rw [updateWith, find?_key_self h hsrc]
      exact applyUpdate_self x
  have hmatched : ∀ s ∈ src, matchedInTgt (mergeInto tgt src) s = true := by
    intro s hs
    rw [matchedInTgt, List.any_eq_true]
    by_cases hm : matchedInTgt tgt s
    · rw [matchedInTgt, List.any_eq_true] at hm
      rcases hm with ⟨t, ht, hkey⟩
      refine ⟨updateWith src t,
        List.mem_append_left _ (List.mem_map_of_mem _ ht), ?_⟩
      rw [decide_eq_true_eq] at hkey ⊢
      rw [mergeKey_updateWith]
      exact hkey
    · have hm2 : matchedInTgt tgt s = false := by
        revert hm; cases matchedInTgt tgt s <;> simp
      exact ⟨s, List.mem_append_right _
        (List.mem_filter.mpr ⟨hs, by simp [hm2]⟩), by simp⟩
  conv_lhs => rw [mergeInto]
  rw [map_id_of_mem hupd_fix]
  have hfil : (src.filter fun s => !(matchedInTgt (mergeInto tgt src) s))
      = [] := by
    apply List.filter_eq_nil_iff.mpr
    intro s hs
    simp [hmatched s hs]
  rw [hfil, List.append_nil]

/-- A concrete destination-table row. -/
def sampleWRow (q : String) (cl : Int) : WRow :=
  { query := q, clicks := cl, impressions := 10, ctr := "0.1",
    position := "2.0", start_dt := "2024-01-01", end_dt := "2024-01-01",
    client := "OCF" }

/-- Witness for C5: one existing destination row, two staged rows with
distinct keys. -/
theorem C5_merge_idempotent_witness :
    mergeInto
        (mergeInto [sampleWRow "alpha" 1]
          [sampleWRow "alpha" 5, sampleWRow "beta" 2])
        [sampleWRow "alpha" 5, sampleWRow "beta" 2] =
      mergeInto [sampleWRow "alpha" 1]
        [sampleWRow "alpha" 5, sampleWRow "beta" 2] :=
  C5_merge_idempotent [sampleWRow "alpha" 1]
    [sampleWRow "alpha" 5, sampleWRow "beta" 2] (by decide)

/-! Concrete configurations and oracles for witnesses and counterexamples. -/

/-- A configuration with both warehouse credentials present. -/
def cfgOk : Config :=
  { folder := "gsc_data", batchSize := 100000,
    snowflakeAccount := some "acct", snowflakeUser := some "user",
    runDate := "2024-01-01" }

/-- A configuration with the warehouse account unset. -/
def cfgNoCreds : Config :=
  { folder := "gsc_data", batchSize := 100000, snowflakeAccount := none,
    snowflakeUser := some "user", runDate := "2024-01-01" }

/-- An oracle on which every third-party call succeeds and the API returns
one row. -/
def oracleSuccess : Oracle :=
  { authFails := false, connectFails := false, fetchFails := false,
    rows := some [{ keys := ["alpha"], clicks := some 3 }],
    uploadFails := fun _ => false, copyFails := false, mergeFails := false,
    truncateFails := false, cleanupFails := false, initObjects := [] }

/-- An oracle on which `auth_search_console()` raises. -/
def oracleAuthFail : Oracle :=
  { oracleSuccess with authFails := true }

/-- An oracle on which the analytics query raises. -/
def oracleFetchFail : Oracle :=
  { oracleSuccess with fetchFails := true }

/-- An oracle on which the API response has no rows. -/
def oracleNoRows : Oracle :=
  { oracleSuccess with rows := none }

/-- Once the run is past authentication, the credential check and the
connect call, it either succeeds or its exception is caught and logged —
and the `finally` clause closes the connection either way. -/
lemma runEtl_try_outcome (cfg : Config) (o : Oracle)
    (ha : o.authFails = false) (hacc : falsy cfg.snowflakeAccount = false)
    (huser : falsy cfg.snowflakeUser = false) (hc : o.connectFails = false) :
    ((runEtl cfg o).outcome = Outcome.success ∨
     ((runEtl cfg o).outcome = Outcome.caught ∧
      Event.printMsg ETL_FAIL ∈ (runEtl cfg o).trace)) ∧
    (runEtl cfg o).connClosed = true := by
  simp only [runEtl, ha, hacc, huser, hc, Bool.or_self, Bool.false_eq_true,
    if_false]
  repeat' split
  all_goals simp [caughtResult]

/-- The trace contains a delete event only in the branch where copy, merge
and truncate all succeeded. -/
lemma runEtl_delete_inv (cfg : Config) (o : Oracle) (k : String) :
    Event.s3Delete k ∉ (runEtl cfg o).trace ∨
    (Event.sqlCopy ∈ (runEtl cfg o).trace ∧
     Event.sqlMerge ∈ (runEtl cfg o).trace ∧
     Event.sqlTruncate ∈ (runEtl cfg o).trace) := by
  simp only [runEtl]
  repeat' split
  all_goals simp [caughtResult, uploadTrace, fetchTrace, listedObjects]

/-- In every branch the run's uploads are either empty or exactly the
upload loop's output. -/
lemma runEtl_uploads_cases (cfg : Config) (o : Oracle) :
    (runEtl cfg o).uploads = [] ∨
    (runEtl cfg o).uploads = (etlUpload cfg o).uploads := by
  simp only [runEtl]
  repeat' split
  all_goals simp [caughtResult]

/-- C2: when the warehouse account or user credential is absent (falsy),
the run raises out of `connect_snowflake`'s presence check unhandled,
before the analytics query and before any object-store call is attempted. -/
theorem C2_missing_credentials_abort (cfg : Config) (o : Oracle)
    (h : falsy cfg.snowflakeAccount = true ∨ falsy cfg.snowflakeUser = true) :
    (runEtl cfg o).outcome = Outcome.uncaught ∧
    Event.gscQuery ∉ (runEtl cfg o).trace ∧
    (∀ k, Event.s3Upload k ∉ (runEtl cfg o).trace) ∧
    Event.s3List ∉ (runEtl cfg o).trace ∧
    (∀ k, Event.s3Delete k ∉ (runEtl cfg o).trace) := by
  by_cases ha : o.authFails
  · simp [runEtl, ha]
  · rcases h with h | h <;> simp [runEtl, ha, h]

/-- Witness for C2: unset account aborts the run unhandled. -/
theorem C2_missing_credentials_abort_witness :
    (runEtl cfgNoCreds oracleSuccess).outcome = Outcome.uncaught :=
  (C2_missing_credentials_abort cfgNoCreds oracleSuccess (Or.inl rfl)).1

/-- C4: when the source returns no rows (no `rows` key, or an empty list),
and the stages before it succeed, the run is a no-op that reports success:
nothing is uploaded, no copy/merge/truncate statement runs, and no cleanup
listing or deletion happens. -/
theorem C4_empty_response_noop (cfg : Config) (o : Oracle)
    (ha : o.authFails = false)
    (hacc : falsy cfg.snowflakeAccount = false)
    (huser : falsy cfg.snowflakeUser = false)
    (hc : o.connectFails = false)
    (hf : o.fetchFails = false)
    (hr : o.rows = none ∨ o.rows = some []) :
    (runEtl cfg o).outcome = Outcome.success ∧
    (∀ k, Event.s3Upload k ∉ (runEtl cfg o).trace) ∧
    Event.sqlCopy ∉ (runEtl cfg o).trace ∧
    Event.sqlMerge ∉ (runEtl cfg o).trace ∧
    Event.sqlTruncate ∉ (runEtl cfg o).trace ∧
    Event.s3List ∉ (runEtl cfg o).trace ∧
    (∀ k, Event.s3Delete k ∉ (runEtl cfg o).trace) := by
  rcases hr with hr | hr <;>
    simp [runEtl, ha, hacc, huser, hc, hf, hr, etlFrame, fetchTrace,
      fetch_data_from_gsc]

/-- Witness for C4: a run whose response has no `rows` key succeeds. -/
theorem C4_empty_response_noop_witness :
    (runEtl cfgOk oracleNoRows).outcome = Outcome.success :=
  (C4_empty_response_noop cfgOk oracleNoRows rfl rfl rfl rfl rfl
    (Or.inl rfl)).1

/-- C6 counterexample: when `auth_search_console()` raises, the exception
escapes `run_etl` unhandled and no failure message is printed — the claim
that every exception at any stage is caught and logged at the top level is
false, because authentication and connection setup run before the `try`
block. -/
theorem C6_counterexample :
    (runEtl cfgOk oracleAuthFail).outcome = Outcome.uncaught ∧
    Event.printMsg ETL_FAIL ∉ (runEtl cfgOk oracleAuthFail).trace := by
  decide

/-- C6 as amended: exceptions raised inside the `try` block (fetch, upload,
load, cleanup) are caught at the top level, a failure message is printed,
and the connection is closed in the `finally` clause; but exceptions raised
by authentication or connection setup — which run before the `try` block —
propagate out of the run unhandled.  In those early-abort cases no
warehouse connection has been opened yet, so the process still never
terminates with an open connection. -/
theorem C6_exception_handling (cfg : Config) (o : Oracle) :
    ((o.authFails = true ∨ falsy cfg.snowflakeAccount = true ∨
      falsy cfg.snowflakeUser = true ∨ o.connectFails = true) →
      (runEtl cfg o).outcome = Outcome.uncaught ∧
      (runEtl cfg o).connOpened = false) ∧
    (o.authFails = false → falsy cfg.snowflakeAccount = false →
     falsy cfg.snowflakeUser = false → o.connectFails = false →
      (runEtl cfg o).outcome ≠ Outcome.uncaught ∧
      (runEtl cfg o).connClosed = true ∧
      ((runEtl cfg o).outcome = Outcome.caught →
        Event.printMsg ETL_FAIL ∈ (runEtl cfg o).trace)) := by
  constructor
  · intro h
    by_cases ha : o.authFails
    · simp [runEtl, ha]
    · have ha2 : o.authFails = false := by simpa using ha
      rcases h with h | h | h | h
      · rw [ha2] at h; cases h
      · simp [runEtl, ha2, h]
      · simp [runEtl, ha2, h]
      · by_cases hacc : falsy cfg.snowflakeAccount
        · simp [runEtl, ha2, hacc]
        · by_cases hu : falsy cfg.snowflakeUser
          · simp [runEtl, ha2, hu]
          · have hacc2 : falsy cfg.snowflakeAccount = false := by
              simpa using hacc
            have hu2 : falsy cfg.snowflakeUser = false := by simpa using hu
            simp [runEtl, ha2, hacc2, hu2, h]
  · intro ha hacc huser hc
    obtain ⟨hout, hclosed⟩ := runEtl_try_outcome cfg o ha hacc huser hc
    refine ⟨?_, hclosed, ?_⟩
    · rcases hout with h1 | ⟨h1, _⟩ <;> rw [h1] <;> intro hx <;> cases hx
    · intro hcaught
      rcases hout with h1 | ⟨h1, hmem⟩
      · rw [h1] at hcaught; cases hcaught
      · exact hmem

/-- Witness for the amended C6: a failing fetch is caught, logged, and the
connection is closed. -/
theorem C6_exception_handling_witness :
    (runEtl cfgOk oracleFetchFail).outcome ≠ Outcome.uncaught ∧
    (runEtl cfgOk oracleFetchFail).connClosed = true ∧
    ((runEtl cfgOk oracleFetchFail).outcome = Outcome.caught →
      Event.printMsg ETL_FAIL ∈ (runEtl cfgOk oracleFetchFail).trace) :=
  (C6_exception_handling cfgOk oracleFetchFail).2 rfl rfl rfl rfl

/-- C8: the run never deletes a staged object unless the warehouse load has
completed: any trace containing a delete also contains the successful copy,
merge and truncate statements, so a failure during fetch, upload or load
leaves every staged object in place. -/
theorem C8_no_delete_without_load (cfg : Config) (o : Oracle) (k : String)
    (h : Event.s3Delete k ∈ (runEtl cfg o).trace) :
    Event.sqlCopy ∈ (runEtl cfg o).trace ∧
    Event.sqlMerge ∈ (runEtl cfg o).trace ∧
    Event.sqlTruncate ∈ (runEtl cfg o).trace :=
  (runEtl_delete_inv cfg o k).resolve_left fun hn => hn h

/-- Witness for C8: the all-success run deletes its staged object and its
trace indeed contains the three load statements. -/
theorem C8_no_delete_without_load_witness :
    Event.sqlCopy ∈ (runEtl cfgOk oracleSuccess).trace ∧
    Event.sqlMerge ∈ (runEtl cfgOk oracleSuccess).trace ∧
    Event.sqlTruncate ∈ (runEtl cfgOk oracleSuccess).trace :=
  C8_no_delete_without_load cfgOk oracleSuccess "gsc_data/batch_1.csv"
    (by decide)

/-- Helper for C10: every object uploaded by `upload_to_s3` is the CSV of a
chunk of the frame, so its rows inherit the frame's column values. -/
lemma upload_content_from_df (folder : String) (df : List Record) (b : Nat)
    (fails : Nat → Bool) (key content : String)
    (hdf : ∀ r ∈ df, r.client = "ocf" ∧ r.timestamp = "")
    (h : (key, content) ∈ (upload_to_s3 folder df b fails).uploads) :
    ∃ rows : List Record, content = to_csv rows ∧
      ∀ r ∈ rows, r.client = "ocf" ∧ r.timestamp = "" := by
  rcases runChunks_uploads_mem folder df b fails _ _ key content h with
    h0 | ⟨i, _, _, hc⟩
  · cases h0
  · exact ⟨batchChunk df b i, hc, fun r hr => hdf r (mem_batchChunk hr)⟩

/-- C10: every uploaded chunk file's serialized content is the CSV of rows
whose client column is the lowercase constant 'ocf' and whose timestamp
column is the empty string: the reassignment of the chunk's client column
to the uppercase 'OCF' happens after the chunk's CSV is written and the
reassigned frame is never serialized, so it affects no uploaded file. -/
theorem C10_uploaded_content_lowercase_client (cfg : Config) (o : Oracle)
    (key content : String)
    (h : (key, content) ∈ (runEtl cfg o).uploads) :
    ∃ rows : List Record, content = to_csv rows ∧
      ∀ r ∈ rows, r.client = "ocf" ∧ r.timestamp = "" := by
  have hdf : ∀ r ∈ etlFrame cfg o, r.client = "ocf" ∧ r.timestamp = "" := by
    intro r hr
    simp only [etlFrame] at hr
    rcases List.mem_map.mp hr with ⟨r0, _, rfl⟩
    exact ⟨rfl, rfl⟩
  rcases runEtl_uploads_cases cfg o with hu | hu
  · rw [hu] at h; cases h
  · rw [hu] at h
    simp only [etlUpload] at h
    exact upload_content_from_df _ _ _ _ _ _ hdf h

/-- The fetched row of the all-success one-row run. -/
def sampleFetched : FetchedRow :=
  { Query := "alpha", Clicks := 3, Impressions := 0, CTR := "0",
    Position := "0", start_dt := "2024-01-01", end_dt := "2024-01-01" }

/-- Witness for C10 at the all-success one-row run. -/
theorem C10_uploaded_content_lowercase_client_witness :
    ∃ rows : List Record,
      to_csv [toRecord sampleFetched clientLower ""] = to_csv rows ∧
      ∀ r ∈ rows, r.client = "ocf" ∧ r.timestamp = "" :=
  C10_uploaded_content_lowercase_client cfgOk oracleSuccess
    "gsc_data/batch_1.csv"
    (to_csv [toRecord sampleFetched clientLower ""])
    (by decide)

end ETL
